import Mathlib

/-
Verification of the zt_dlipower PowerSwitch client
(src/zt_dlipower/dlipower.py) against its specification.

The development is a shallow embedding of the Python module:

* `pyIntStr`, `upperStr`, `quote`, … model the Python builtins / stdlib
  helpers the module uses (`int()`, `str.upper()`, `urllib.parse.quote`).
* `Node` models the BeautifulSoup parse tree handed to
  `PowerSwitch.statuslist`; `parse_status` embeds the HTML-walking part of
  `statuslist` (anchor cell, three `.parent` steps, row extraction).
* `SwSt`/`Device` model the mutable client state (`PowerSwitch._PowerSwitch__len`
  cache, number of status-page fetches so far, and a trace of the
  `geturl`/`time.sleep` effects); `statuslist`, `determine_outlet`, `status`,
  `off`, `on`, `cycle`, `get_outlet_name`, `set_outlet_name` embed the
  corresponding methods over that state.  A `Device` is the stream of parsed
  status pages: the value of `d i` is the parse result of the i-th
  `statuslist()` call (`[]` models an unreachable or unparseable device).
* `login` embeds `PowerSwitch.login` over an abstract device behaviour.
* `command_on_outlets` embeds the dispatcher, with the per-outlet operation
  abstracted as a function `Ident → OpResult` (the multiprocessing pool
  applies the operation to each outlet and collects results in input order).
* `PowerSwitch.init` embeds the constructor's argument/configuration
  precedence logic.

Exceptions (`DLIPowerException`, `KeyError`, `AttributeError`, …) are
modelled with `Except`.
-/

/-! ## Python builtin models -/

/-- Model of Python `str.strip()`: drop leading and trailing whitespace.
(Defined from first principles rather than `String.trim` so that it
kernel-reduces inside `decide`/`rfl` proofs.) -/
def pyStrip (s : String) : String :=
  String.mk
    ((((s.toList.dropWhile Char.isWhitespace).reverse).dropWhile
        Char.isWhitespace).reverse)

/-- Value of a decimal digit list, most significant first. -/
def digitsVal (l : List Char) : Int :=
  l.foldl (fun a c => a * 10 + (Int.ofNat (c.toNat - '0'.toNat))) 0

/-- Model of Python `int(s)` on a string: strip surrounding whitespace,
allow one optional sign, then one or more decimal digits; `none` models
`ValueError`.  (Underscore digit separators are not modelled; no claim
involves them.) -/
def pyIntStr (s : String) : Option Int :=
  let t := pyStrip s
  let core : Int → List Char → Option Int := fun sgn ds =>
    if ds ≠ [] ∧ ds.all Char.isDigit then some (sgn * digitsVal ds) else none
  match t.toList with
  | '+' :: rest => core 1 rest
  | '-' :: rest => core (-1) rest
  | l => core 1 l

/-- Model of Python `str.upper()` (ASCII range, which is all the module
ever upper-cases: outlet states `on`/`off`). -/
def upperStr (s : String) : String :=
  String.mk (s.toList.map Char.toUpper)

/-- Hex digit (uppercase) for a value below 16. -/
def hexDigit (n : Nat) : Char :=
  if n < 10 then Char.ofNat ('0'.toNat + n) else Char.ofNat ('A'.toNat + (n - 10))

/-- Two-digit uppercase hex of a byte, as `urllib.parse.quote` produces. -/
def hexByte (n : Nat) : String :=
  String.mk [hexDigit (n / 16 % 16), hexDigit (n % 16)]

/-- UTF-8 bytes of a character (standard 1-4 byte encoding). -/
def utf8Bytes (c : Char) : List Nat :=
  let n := c.toNat
  if n < 0x80 then [n]
  else if n < 0x800 then [0xC0 + n / 64, 0x80 + n % 64]
  else if n < 0x10000 then [0xE0 + n / 4096, 0x80 + n / 64 % 64, 0x80 + n % 64]
  else [0xF0 + n / 262144, 0x80 + n / 4096 % 64, 0x80 + n / 64 % 64, 0x80 + n % 64]

/-- Characters `urllib.parse.quote` leaves unescaped with the default
`safe='/'`: ASCII alphanumerics, `_.-~` and `/`. -/
def quoteSafe (c : Char) : Bool :=
  c.isAlpha || c.isDigit || c = '_' || c = '.' || c = '-' || c = '~' || c = '/'

/-- Model of `urllib.parse.quote(s)` (default `safe='/'`). -/
def quote (s : String) : String :=
  String.join (s.toList.map fun c =>
    if quoteSafe c then String.singleton c
    else String.join ((utf8Bytes c).map fun b => "%" ++ hexByte b))

/-- Model of Python `s.rstrip("/")`. -/
def rstripSlash (s : String) : String :=
  String.mk (((s.toList.reverse).dropWhile (· = '/')).reverse)

/-! ## Data model

An `OutletRecord` is one parsed row of the status table, exactly the tuple
`(int(plugnumber), hostname, state)` that `statuslist` appends: the outlet
number, the name cell's `.string` (which BeautifulSoup may report as `None`,
hence `Option`), and the upper-cased state. -/

/-- Equality on `Except` values is decidable (needed so witnesses can
evaluate the embedded methods with `decide`). -/
instance {ε α : Type} [DecidableEq ε] [DecidableEq α] :
    DecidableEq (Except ε α) := fun
  | .error e, .error f =>
    if h : e = f then .isTrue (by rw [h])
    else .isFalse (by intro hh; cases hh; exact h rfl)
  | .error _, .ok _ => .isFalse (by intro h; cases h)
  | .ok _, .error _ => .isFalse (by intro h; cases h)
  | .ok a, .ok b =>
    if h : a = b then .isTrue (by rw [h])
    else .isFalse (by intro hh; cases hh; exact h rfl)

/-- Parsed status-table row `(plugnumber, hostname, state)`. -/
structure OutletRecord where
  num : Int
  name : Option String
  state : String
deriving DecidableEq, Repr

/-- Outlet identifier as accepted by `determine_outlet`: a Python `int` or
`str`. -/
inductive Ident
  | num (n : Int)
  | str (s : String)
deriving DecidableEq, Repr

/-- Python truthiness of an identifier (`if outlet ...`). -/
def Ident.truthy : Ident → Bool
  | .num n => n ≠ 0
  | .str s => s ≠ ""

/-- Python `"%s" % outlet`: decimal for ints, identity for strings. -/
def Ident.format : Ident → String
  | .num n => toString n
  | .str s => s

/-- Model of `int(outlet)` on an identifier (`int` is the identity on ints). -/
def Ident.pyInt : Ident → Option Int
  | .num n => some n
  | .str s => pyIntStr s

/-- The `DLIPowerException` raised by `determine_outlet`: either
`"Outlet number %d out of range"` or `"Outlet name '%s' unknown"`. -/
inductive Err
  | outOfRange (n : Int)
  | unknownName (s : String)
deriving DecidableEq, Repr

/-- Observable side effect of a method: an HTTP fetch of a relative URL
(`geturl`) or a `time.sleep`. -/
inductive Ev
  | get (url : String)
  | sleep (t : ℚ)
deriving DecidableEq, Repr

/-- Mutable client state threaded through the methods: `calls` counts the
`statuslist()` invocations so far (indexing the device stream), `len` is the
cached outlet count `self.__len` (0 = not yet observed), and `trace` records
the fetch/sleep effects in order. -/
structure SwSt where
  calls : Nat
  len : Nat
  trace : List Ev
deriving DecidableEq, Repr

/-- Device behaviour: `d i` is the parsed outlet list produced by the i-th
`statuslist()` call (`[]` = unreachable or unparseable page). -/
def Device : Type := Nat → List OutletRecord

/-- Append a `geturl` event to the trace. -/
def pushGet (url : String) (st : SwSt) : SwSt :=
  { st with trace := st.trace ++ [Ev.get url] }

/-- Append a `time.sleep` event to the trace. -/
def pushSleep (t : ℚ) (st : SwSt) : SwSt :=
  { st with trace := st.trace ++ [Ev.sleep t] }

/-! ## PowerSwitch methods (logic layer) -/

/-- Embedding of `PowerSwitch.statuslist` at the logic layer: fetch and
parse the status page (the parse itself is `parse_status` below; here the
device stream supplies its successful result), then cache the outlet count
in `self.__len` if it is still 0. -/
def statuslist (d : Device) (st : SwSt) : List OutletRecord × SwSt :=
  (d st.calls,
    { calls := st.calls + 1
      len := if st.len = 0 then (d st.calls).length else st.len
      trace := st.trace ++ [Ev.get "index.htm"] })

/-- Embedding of `PowerSwitch.__len__`: return the cached count, computing
it from a fresh `statuslist()` call when it is 0. -/
def lenM (d : Device) (st : SwSt) : Nat × SwSt :=
  if st.len = 0 then
    ((statuslist d st).2.len, (statuslist d st).2)
  else (st.len, st)

/-- One iteration of `determine_outlet`'s matching loop: string identifiers
match a truthy name cell by trimmed equality, int identifiers match a
nonzero plug number by equality; the match yields the record's number. -/
def plugMatch (outlet : Ident) (plug : OutletRecord) : Option Int :=
  match outlet with
  | .str s =>
    match plug.name with
    | some t => if t ≠ "" ∧ pyStrip t = pyStrip s then some plug.num else none
    | none => none
  | .num k => if plug.num ≠ 0 ∧ plug.num = k then some plug.num else none

/-- The matching loop of `determine_outlet`: guarded by truthiness of the
identifier and non-emptiness of the status list, return the first record's
match. -/
def findMatch (outlet : Ident) (outlets : List OutletRecord) : Option Int :=
  if outlet.truthy ∧ outlets ≠ [] then
    outlets.findSome? (plugMatch outlet)
  else none

/-- Embedding of `PowerSwitch.determine_outlet`: fetch the live status list,
try the name/number matching loop, then fall back to `int(outlet)` with a
bounds check against `len(self)`; out-of-range numbers and unknown names
raise `DLIPowerException`. -/
def determine_outlet (d : Device) (outlet : Ident) (st : SwSt) :
    Except Err (Int × SwSt) :=
  match findMatch outlet (statuslist d st).1 with
  | some n => .ok (n, (statuslist d st).2)
  | none =>
    match outlet.pyInt with
    | some k =>
      if k ≤ 0 ∨ ((lenM d (statuslist d st).2).1 : Int) < k then
        .error (.outOfRange k)
      else .ok (k, (lenM d (statuslist d st).2).2)
    | none => .error (.unknownName outlet.format)

/-- Embedding of `PowerSwitch.status`: resolve the outlet, refetch the
status list, and return the matching record's state, else `"Unknown"`. -/
def status (d : Device) (outlet : Ident) (st : SwSt) :
    Except Err (String × SwSt) :=
  match determine_outlet d outlet st with
  | .error e => .error e
  | .ok (n, st1) =>
    if (statuslist d st1).1 ≠ [] ∧ n ≠ 0 then
      match (statuslist d st1).1.findSome?
          (fun plug => if plug.num = n then some plug.state else none) with
      | some s => .ok (s, (statuslist d st1).2)
      | none => .ok ("Unknown", (statuslist d st1).2)
    else .ok ("Unknown", (statuslist d st1).2)

/-- Embedding of `PowerSwitch.get_outlet_name`: resolve the outlet, refetch
the status list, and return the matching record's name cell (which may be
`None`), else the string `"Unknown"`. -/
def get_outlet_name (d : Device) (outlet : Ident) (st : SwSt) :
    Except Err (Option String × SwSt) :=
  match determine_outlet d outlet st with
  | .error e => .error e
  | .ok (n, st1) =>
    if (statuslist d st1).1 ≠ [] ∧ n ≠ 0 then
      match (statuslist d st1).1.findSome?
          (fun plug => if plug.num = n then some plug.name else none) with
      | some nm => .ok (nm, (statuslist d st1).2)
      | none => .ok (some "Unknown", (statuslist d st1).2)
    else .ok (some "Unknown", (statuslist d st1).2)

/-- Embedding of `PowerSwitch.set_outlet_name`: validate the outlet through
the resolver (discarding its result), GET
`unitnames.cgi?outname%s=%s % (outlet, quote(name))` — note the raw
identifier, not the resolved number, is interpolated — and report success
iff a fresh `get_outlet_name` equals the new name. -/
def set_outlet_name (d : Device) (outlet : Ident) (name : String) (st : SwSt) :
    Except Err (Bool × SwSt) :=
  match determine_outlet d outlet st with
  | .error e => .error e
  | .ok (_, st1) =>
    let st2 := pushGet ("unitnames.cgi?outname" ++ outlet.format ++ "=" ++ quote name) st1
    match get_outlet_name d outlet st2 with
    | .error e => .error e
    | .ok (nm, st3) => .ok (nm == some name, st3)

/-- Embedding of `PowerSwitch.off`: GET `outlet?%d=OFF` for the resolved
number, then report failure (`true`) iff the post-command status read is
not `"OFF"`. -/
def off (d : Device) (outlet : Ident) (st : SwSt) : Except Err (Bool × SwSt) :=
  match determine_outlet d outlet st with
  | .error e => .error e
  | .ok (n, st1) =>
    let st2 := pushGet ("outlet?" ++ toString n ++ "=OFF") st1
    match status d outlet st2 with
    | .error e => .error e
    | .ok (s, st3) => .ok (s != "OFF", st3)

/-- Embedding of `PowerSwitch.on`: GET `outlet?%d=ON` for the resolved
number, then report failure (`true`) iff the post-command status read is
not `"ON"`. -/
def on' (d : Device) (outlet : Ident) (st : SwSt) : Except Err (Bool × SwSt) :=
  match determine_outlet d outlet st with
  | .error e => .error e
  | .ok (n, st1) =>
    let st2 := pushGet ("outlet?" ++ toString n ++ "=ON") st1
    match status d outlet st2 with
    | .error e => .error e
    | .ok (s, st3) => .ok (s != "ON", st3)

/-- Embedding of `PowerSwitch.cycle`: if `off` reports failure return `true`
at once; otherwise sleep `cycletime`, invoke `on`, and return `false`
whatever `on` returned. -/
def cycle (d : Device) (cycletime : ℚ) (outlet : Ident) (st : SwSt) :
    Except Err (Bool × SwSt) :=
  match off d outlet st with
  | .error e => .error e
  | .ok (b, st1) =>
    if b then .ok (true, st1)
    else
      match on' d outlet (pushSleep cycletime st1) with
      | .error e => .error e
      | .ok (_, st2) => .ok (false, st2)

/-! ## Page parser (the HTML-walking part of `statuslist`)

`Node` models the BeautifulSoup parse tree: an element with a tag name and
children, or a navigable string.  The document node passed to `parse_status`
plays the role of the `BeautifulSoup` object itself. -/

/-- BeautifulSoup parse-tree node. -/
inductive Node
  | elem (tag : String) (children : List Node)
  | text (s : String)

/-- Transport-level exceptions from `requests` that matter to `login`:
`ConnectTimeout` is a subclass of `ConnectionError`, so the GET's
`except (ConnectTimeout, ConnectionError)` catches both but not
`ReadTimeout`; the POST's `except ConnectTimeout` catches only the
first. -/
inductive TExc
  | connectTimeout
  | connectionError
  | readTimeout
deriving DecidableEq, Repr

/-- Python exceptions that can propagate out of the embedded methods. -/
inductive PyExc
  | attributeError
  | typeError
  | valueError
  | keyError (k : String)
  | transport (e : TExc)
deriving DecidableEq, Repr

mutual

/-- All descendants of a node in document (preorder) order, the node itself
excluded — the search space of BeautifulSoup's `findAll`. -/
def Node.descendants : Node → List Node
  | .text _ => []
  | .elem _ cs => descendantsList cs

/-- Descendants of a forest in document order (each root included). -/
def descendantsList : List Node → List Node
  | [] => []
  | c :: cs => c :: c.descendants ++ descendantsList cs

end

/-- BeautifulSoup `node.findAll(filter)`: all matching descendants in
document order. -/
def findAll (p : Node → Bool) (n : Node) : List Node :=
  n.descendants.filter p

/-- BeautifulSoup `.string`: the text of a tag whose chain of only children
ends in a single navigable string, else `None`. -/
def Node.string : Node → Option String
  | .text s => some s
  | .elem _ [c] => c.string
  | .elem _ _ => none

/-- Tag name of an element node. -/
def Node.tag? : Node → Option String
  | .elem t _ => some t
  | .text _ => none

/-- Does the node have the given tag name (`findAll("td")`-style filter)? -/
def isTag (t : String) (n : Node) : Bool :=
  n.tag? == some t

/-- Filter of `findAll(tag, text=s)`: a tag whose `.string` equals `s`. -/
def isTagWithString (t s : String) (n : Node) : Bool :=
  isTag t n && (n.string == some s)

mutual

/-- Path (child indices from the root) of the first node matching `p` in
document order among the descendants of the given node. -/
def findPathNode (p : Node → Bool) : Node → Option (List Nat)
  | .text _ => none
  | .elem _ cs => findPathList p cs 0

/-- Path search over a forest, children numbered from `i`. -/
def findPathList (p : Node → Bool) : List Node → Nat → Option (List Nat)
  | [], _ => none
  | c :: cs, i =>
    if p c then some [i]
    else
      match findPathNode p c with
      | some path => some (i :: path)
      | none => findPathList p cs (i + 1)

end

/-- Subtree at a child-index path. -/
def getAt : Node → List Nat → Option Node
  | n, [] => some n
  | .elem _ cs, i :: rest =>
    match cs.get? i with
    | some c => getAt c rest
    | none => none
  | .text _, _ :: _ => none

/-- The `.parent.parent.parent` step of `statuslist`: the ancestor three
levels above the anchor cell.  When the anchor is fewer than three levels
deep, the chain runs past the `BeautifulSoup` object into `None` and Python
raises `AttributeError` (which `statuslist` does not catch). -/
def ancestor3 (doc : Node) (path : List Nat) : Except PyExc Node :=
  if 3 ≤ path.length then
    match getAt doc (path.take (path.length - 3)) with
    | some r => .ok r
    | none => .error .attributeError
  else .error .attributeError

/-- Row extraction of `statuslist`: `columns = tr.findAll("td")`; rows
without exactly 5 cells yield nothing; otherwise build
`(int(columns[0].string), columns[1].string, columns[2].find("font").string.upper())`,
raising `TypeError`/`ValueError` for an unusable number cell and
`AttributeError` when column 2 has no `font` element or it has no string. -/
def extractRow (tr : Node) : Except PyExc (Option OutletRecord) :=
  if (findAll (isTag "td") tr).length = 5 then
    match findAll (isTag "td") tr with
    | c0 :: c1 :: c2 :: _ =>
      match c0.string with
      | none => .error .typeError
      | some pn =>
        match pyIntStr pn with
        | none => .error .valueError
        | some num =>
          match (findAll (isTag "font") c2).head? with
          | none => .error .attributeError
          | some f =>
            match f.string with
            | none => .error .attributeError
            | some s => .ok (some ⟨num, c1.string, upperStr s⟩)
    | _ => .ok none
  else .ok none

/-- The row loop of `statuslist` over `root.findAll("tr")`, in document
order. -/
def processRows : List Node → Except PyExc (List OutletRecord)
  | [] => .ok []
  | tr :: rest =>
    match extractRow tr with
    | .error e => .error e
    | .ok r? =>
      match processRows rest with
      | .error e => .error e
      | .ok rs =>
        match r? with
        | some r => .ok (r :: rs)
        | none => .ok rs

/-- Embedding of the parsing part of `PowerSwitch.statuslist`: `fetch` is
the `geturl("index.htm")` result (`none` = fetch failed), `isAdmin` the
incoming `self._is_admin`; the result pairs the extracted records with the
updated `_is_admin` flag.  Anchor on the first `td` whose string is `"1"`;
if there is none, set the admin flag false and retry with a `th` whose
string is `"#"`; if that is missing too, return no outlets. -/
def parse_status (fetch : Option Node) (isAdmin : Bool) :
    Except PyExc (List OutletRecord × Bool) :=
  match fetch with
  | none => .ok ([], isAdmin)
  | some doc =>
    match findPathNode (isTagWithString "td" "1") doc with
    | some p =>
      match ancestor3 doc p with
      | .error e => .error e
      | .ok root =>
        match processRows (findAll (isTag "tr") root) with
        | .error e => .error e
        | .ok rs => .ok (rs, isAdmin)
    | none =>
      match findPathNode (isTagWithString "th" "#") doc with
      | some p =>
        match ancestor3 doc p with
        | .error e => .error e
        | .ok root =>
          match processRows (findAll (isTag "tr") root) with
          | .error e => .error e
          | .ok rs => .ok (rs, false)
      | none => .ok ([], false)

/-! ## Session/Authenticator (`PowerSwitch.login`) -/

/-- Response to a GET of the base URL: redirect flag, `Location` header and
the page's `<input>` fields as (name attribute, value attribute) pairs. -/
structure GetResp where
  isRedirect : Bool
  location : String
  inputs : List (Option String × String)

/-- Response to the `login.tgi` POST: status code and whether a
`Set-Cookie` header is present. -/
structure PostResp where
  status : Nat
  setCookie : Bool

/-- Device behaviour during `login`: the outcome of the initial GET, of the
re-GET after a redirect, and of the credential POST. -/
structure LoginDevice where
  get1 : Except TExc GetResp
  get2 : Except TExc GetResp
  post : Except TExc PostResp

/-- Session state `login` leaves behind: `secure_login`, whether
`self.session` is still a session object (`false` = it was set to `None`),
and the possibly rewritten `base_url`. -/
structure LoginResult where
  secureLogin : Bool
  hasSession : Bool
  baseUrl : String
deriving DecidableEq, Repr

/-- Fold the page's `<input>` fields into the `fields` dict (named fields
only, later entries overwriting earlier ones), then look up a key. -/
def fieldsLookup (inputs : List (Option String × String)) (key : String) :
    Option String :=
  inputs.foldl
    (fun acc i =>
      match i.1 with
      | some nm => if nm = key then some i.2 else acc
      | none => acc)
    none

/-- Embedding of `PowerSwitch.login`.  The initial GET (and the re-GET on a
redirect, inside the same `try`) turns `ConnectTimeout`/`ConnectionError`
into an unauthenticated return with `session = None`, but lets a
`ReadTimeout` escape.  The page's `Challenge` field is read with a plain
dict subscript — a page without one raises `KeyError`.  The POST catches
only `ConnectTimeout`; on HTTP 200 with a `Set-Cookie` header the session
becomes secure.  `md5hex` abstracts `hashlib.md5(...).hexdigest()`; the
digest is posted, not otherwise observed. -/
def login (dev : LoginDevice) (baseUrl userid password : String)
    (md5hex : String → String) : Except PyExc LoginResult :=
  match dev.get1 with
  | .error .readTimeout => .error (.transport .readTimeout)
  | .error _ => .ok ⟨false, false, baseUrl⟩
  | .ok r1 =>
    let afterRedirect : Except TExc (GetResp × String) :=
      if r1.isRedirect then
        match dev.get2 with
        | .error e => .error e
        | .ok r2 => .ok (r2, rstripSlash r1.location)
      else .ok (r1, baseUrl)
    match afterRedirect with
    | .error .readTimeout => .error (.transport .readTimeout)
    | .error _ => .ok ⟨false, false, rstripSlash r1.location⟩
    | .ok (resp, url) =>
      match fieldsLookup resp.inputs "Challenge" with
      | none => .error (.keyError "Challenge")
      | some challenge =>
        let _digest := md5hex (challenge ++ userid ++ password ++ challenge)
        match dev.post with
        | .error .connectTimeout => .ok ⟨false, false, url⟩
        | .error e => .error (.transport e)
        | .ok p => .ok ⟨p.status == 200 && p.setCookie, true, url⟩

/-! ## Command dispatcher (`PowerSwitch.command_on_outlets`) -/

/-- Result of one per-outlet operation: the boolean of `on`/`off`/`cycle`
or the string of `status`/`get_outlet_name`. -/
inductive OpResult
  | bool (b : Bool)
  | str (s : String)
deriving DecidableEq, Repr

/-- Python value returned by `command_on_outlets`: a bare bool, a bare
string, or a list. -/
inductive PyVal
  | bool (b : Bool)
  | str (s : String)
  | list (l : List PyVal)

/-- Embed an operation result as a Python value. -/
def OpResult.val : OpResult → PyVal
  | .bool b => .bool b
  | .str s => .str s

/-- Python truthiness of an operation result (`if value:`). -/
def OpResult.truthy : OpResult → Bool
  | .bool b => b
  | .str s => s ≠ ""

/-- The multi-outlet tail of `command_on_outlets`, as a function of the
collected per-outlet results: if the first result is a bool, return `True`
as soon as any result is truthy, else the first result; otherwise return
the whole result list. -/
def aggregate (results : List OpResult) : Except PyExc PyVal :=
  match results with
  | [] => .error .valueError
  | r0 :: rest =>
    match r0 with
    | .bool _ =>
      if (r0 :: rest).any OpResult.truthy then .ok (.bool true)
      else .ok r0.val
    | .str _ => .ok (.list ((r0 :: rest).map OpResult.val))

/-- Embedding of `PowerSwitch.command_on_outlets`, with the invoked
operation abstracted as `run` (the worker-pool step applies it to each
identifier and collects the results in input order).  A single-element
list invokes the operation directly, returning a bare bool but wrapping
any other result in a one-element list; a longer list maps the operation
over all identifiers and aggregates.  An empty identifier list makes
`multiprocessing.Pool(processes=0)` raise `ValueError`. -/
def command_on_outlets (run : Ident → OpResult) (outlets : List Ident) :
    Except PyExc PyVal :=
  if outlets.length = 1 then
    match outlets with
    | o :: _ =>
      match run o with
      | .bool b => .ok (.bool b)
      | r => .ok (.list [r.val])
    | [] => .error .valueError
  else aggregate (outlets.map run)

/-! ## Construction (`PowerSwitch.__init__` and `load_configuration`) -/

/-- Typed view of the configuration dictionary. -/
structure Config where
  userid : String
  password : String
  hostname : String
  timeout : ℚ
  cycletime : ℚ
  retries : Int
deriving DecidableEq, Repr

/-- The module-level `CONFIG_DEFAULTS`. -/
def CONFIG_DEFAULTS : Config :=
  { userid := "admin"
    password := "4321"
    hostname := "192.168.0.100"
    timeout := 2
    cycletime := 3
    retries := 3 }

/-- Embedding of `PowerSwitch.load_configuration`: `file = none` means the
config file does not exist, `some none` that it exists but is invalid JSON
(`ValueError`); both fall back to `CONFIG_DEFAULTS`. -/
def load_configuration (file : Option (Option Config)) : Config :=
  match file with
  | some (some c) => c
  | some none => CONFIG_DEFAULTS
  | none => CONFIG_DEFAULTS

/-- Fields `__init__` assigns from its arguments and the loaded
configuration. -/
structure InitResult where
  userid : String
  password : String
  hostname : String
  timeout : ℚ
  cycletime : ℚ
  retries : Int
  scheme : String
  base_url : String
deriving DecidableEq, Repr

/-- Python truthiness choice `if arg: coerce(arg) else config[key]` for a
string argument (`None` and `""` are falsy). -/
def chooseStr (arg : Option String) (cfg : String) : String :=
  match arg with
  | some s => if s ≠ "" then s else cfg
  | none => cfg

/-- Truthiness choice for a numeric argument (`None`, `0` and `0.0` are
falsy). -/
def chooseQ (arg : Option ℚ) (cfg : ℚ) : ℚ :=
  match arg with
  | some q => if q ≠ 0 then q else cfg
  | none => cfg

/-- Truthiness choice for an integer argument. -/
def chooseInt (arg : Option Int) (cfg : Int) : Int :=
  match arg with
  | some n => if n ≠ 0 then n else cfg
  | none => cfg

/-- Embedding of `PowerSwitch.__init__`'s parameter handling: every
parameter is taken from the explicit argument only when that argument is
truthy, else from the loaded configuration; then the scheme and base URL
are derived. -/
def PowerSwitch.init (userid password hostname : Option String)
    (timeout cycletime : Option ℚ) (retries : Option Int)
    (use_https : Bool) (config : Config) : InitResult :=
  let u := chooseStr userid config.userid
  let p := chooseStr password config.password
  let h := chooseStr hostname config.hostname
  let t := chooseQ timeout config.timeout
  let c := chooseQ cycletime config.cycletime
  let r := chooseInt retries config.retries
  let scheme := if use_https then "https" else "http"
  { userid := u
    password := p
    hostname := h
    timeout := t
    cycletime := c
    retries := r
    scheme := scheme
    base_url := scheme ++ "://" ++ h }

/-! ## Fixtures used by witnesses and counterexamples -/

/-- An unreachable (or unparseable) device: every status fetch yields no
outlets. -/
def dEmpty : Device := fun _ => []

/-- A device whose every status page lists outlets 1 `"A"` (on) and 2 `"B"`
(off). -/
def dTwo : Device :=
  fun _ => [⟨1, some "A", "ON"⟩, ⟨2, some "B", "OFF"⟩]

/-! ## Helper lemmas -/

/-- A successful `plugMatch` on an int identifier can only return that very
number. -/
theorem plugMatch_num_eq {n m : Int} {p : OutletRecord}
    (h : plugMatch (Ident.num n) p = some m) : m = n := by
  simp only [plugMatch] at h
  split at h
  · next hc =>
    injection h with h1
    omega
  · cases h

/-- A successful matching loop on an int identifier can only return that
very number. -/
theorem findMatch_num_eq {n m : Int} {l : List OutletRecord}
    (h : findMatch (Ident.num n) l = some m) : m = n := by
  unfold findMatch at h
  split at h
  · obtain ⟨p, _, hp⟩ := List.exists_of_findSome?_eq_some h
    exact plugMatch_num_eq hp
  · cases h

/-- A `statuslist` call does not change a nonzero cached count. -/
theorem statuslist_len_stable (d : Device) (st : SwSt) (h : st.len ≠ 0) :
    (statuslist d st).2.len = st.len := by
  simp [statuslist, h]

/-- With a nonzero cached count, `__len__` returns it without a fetch. -/
theorem lenM_of_ne (d : Device) (st : SwSt) (h : st.len ≠ 0) :
    lenM d st = (st.len, st) := by
  simp [lenM, h]

/-- Resolution of an int identifier never returns any other number. -/
theorem determine_outlet_num_result (d : Device) (st : SwSt) (n r : Int)
    (st' : SwSt) (h : determine_outlet d (Ident.num n) st = .ok (r, st')) :
    r = n := by
  unfold determine_outlet at h
  split at h
  · next m hm =>
    simp only [Except.ok.injEq, Prod.mk.injEq] at h
    exact h.1 ▸ findMatch_num_eq hm
  · next hm =>
    simp only [Ident.pyInt] at h
    split at h
    · cases h
    · simp only [Except.ok.injEq, Prod.mk.injEq] at h
      exact h.1.symm

/-- Resolution of an int identifier within `[1, cached count]` succeeds and
returns it (whether or not it also appears in the live list). -/
theorem determine_outlet_num_in_range (d : Device) (st : SwSt) (n : Int)
    (hL : st.len ≠ 0) (h1 : 1 ≤ n) (h2 : n ≤ (st.len : Int)) :
    ∃ st', determine_outlet d (Ident.num n) st = .ok (n, st') := by
  unfold determine_outlet
  cases hm : findMatch (Ident.num n) (statuslist d st).1 with
  | some m =>
    refine ⟨(statuslist d st).2, ?_⟩
    simp only [hm, findMatch_num_eq hm]
  | none =>
    refine ⟨(lenM d (statuslist d st).2).2, ?_⟩
    have hst : (statuslist d st).2.len = st.len := statuslist_len_stable d st hL
    have hlen : lenM d (statuslist d st).2 = (st.len, (statuslist d st).2) := by
      rw [lenM_of_ne d _ (hst ▸ hL), hst]
    simp only [hm, Ident.pyInt, hlen]
    rw [if_neg]
    push_neg
    exact ⟨by omega, by omega⟩

/-- Resolution of an int identifier outside `[1, cached count]` that matches
no live record raises the out-of-range `DLIPowerException`. -/
theorem determine_outlet_num_out_of_range (d : Device) (st : SwSt) (n : Int)
    (hL : st.len ≠ 0) (hr : n ≤ 0 ∨ (st.len : Int) < n)
    (hnom : ∀ p ∈ d st.calls, plugMatch (Ident.num n) p = none) :
    determine_outlet d (Ident.num n) st = .error (.outOfRange n) := by
  have hfm : findMatch (Ident.num n) (statuslist d st).1 = none := by
    unfold findMatch
    split
    · rw [List.findSome?_eq_none_iff]
      intro p hp
      exact hnom p (by simpa [statuslist] using hp)
    · rfl
  have hst : (statuslist d st).2.len = st.len := statuslist_len_stable d st hL
  have hlen : lenM d (statuslist d st).2 = (st.len, (statuslist d st).2) := by
    rw [lenM_of_ne d _ (hst ▸ hL), hst]
  unfold determine_outlet
  simp only [hfm, Ident.pyInt, hlen]
  rw [if_pos]
  exact hr

/-- Resolution of a non-numeric identifier that matches no live record's
trimmed name raises the unknown-name `DLIPowerException`. -/
theorem determine_outlet_unknown_name (d : Device) (st : SwSt) (s : String)
    (hpi : pyIntStr s = none)
    (hnom : ∀ p ∈ d st.calls, plugMatch (Ident.str s) p = none) :
    determine_outlet d (Ident.str s) st = .error (.unknownName s) := by
  have hfm : findMatch (Ident.str s) (statuslist d st).1 = none := by
    unfold findMatch
    split
    · rw [List.findSome?_eq_none_iff]
      intro p hp
      exact hnom p (by simpa [statuslist] using hp)
    · rfl
  unfold determine_outlet
  simp only [hfm, Ident.pyInt, hpi, Ident.format]

/-- A name match in the live list wins, bypassing numeric interpretation
and the bounds check entirely. -/
theorem determine_outlet_name_first (d : Device) (st : SwSt) (s : String)
    (m : Int) (hfm : findMatch (Ident.str s) (d st.calls) = some m) :
    determine_outlet d (Ident.str s) st = .ok (m, (statuslist d st).2) := by
  unfold determine_outlet
  have : (statuslist d st).1 = d st.calls := rfl
  rw [this, hfm]

/-! ## C1 — outlet resolution -/

/-- C1 counterexample: with a cached outlet count of 1 but a live status
page listing outlets 1 and 2, `determine_outlet(2)` happily returns 2 —
a number outside `[1, cached count]` — instead of raising the
"out of range" error the claim promises for every numeric identifier
outside that range. -/
theorem c1_counterexample :
    determine_outlet dTwo (Ident.num 2) ⟨0, 1, []⟩ =
      .ok (2, ⟨1, 1, [Ev.get "index.htm"]⟩) ∧
    ¬((2 : Int) ≤ ((⟨0, 1, []⟩ : SwSt).len : Int)) := by
  constructor
  · rfl
  · decide

/-- C1 (amended): outlet resolution.  (i) An int identifier can only
resolve to itself — nothing is ever clamped; (ii) every `n` in
`[1, cached count]` resolves to `n`; (iii) a numeric identifier outside
that range raises "out of range" provided it matches no record of the
live status list (a live match bypasses the bounds check, which is what
the counterexample exhibits); (iv) a non-numeric identifier matching no
record's trimmed name raises "unknown name"; (v) name matching against
the live status list is tried before numeric interpretation: a name
match decides the result regardless of the identifier's numeric
reading. -/
theorem c1_outlet_resolution :
    (∀ (d : Device) (st : SwSt) (n r : Int) (st' : SwSt),
        determine_outlet d (Ident.num n) st = .ok (r, st') → r = n) ∧
    (∀ (d : Device) (st : SwSt) (n : Int), st.len ≠ 0 → 1 ≤ n →
        n ≤ (st.len : Int) →
        ∃ st', determine_outlet d (Ident.num n) st = .ok (n, st')) ∧
    (∀ (d : Device) (st : SwSt) (n : Int), st.len ≠ 0 →
        (n ≤ 0 ∨ (st.len : Int) < n) →
        (∀ p ∈ d st.calls, plugMatch (Ident.num n) p = none) →
        determine_outlet d (Ident.num n) st = .error (.outOfRange n)) ∧
    (∀ (d : Device) (st : SwSt) (s : String), pyIntStr s = none →
        (∀ p ∈ d st.calls, plugMatch (Ident.str s) p = none) →
        determine_outlet d (Ident.str s) st = .error (.unknownName s)) ∧
    (∀ (d : Device) (st : SwSt) (s : String) (m : Int),
        findMatch (Ident.str s) (d st.calls) = some m →
        determine_outlet d (Ident.str s) st = .ok (m, (statuslist d st).2)) :=
  ⟨determine_outlet_num_result, determine_outlet_num_in_range,
   determine_outlet_num_out_of_range, determine_outlet_unknown_name,
   determine_outlet_name_first⟩

/-- C1 witness: the five parts of `c1_outlet_resolution` applied to the
two-outlet device with cached count 2. -/
theorem c1_outlet_resolution_witness :
    ((1 : Int) = 1) ∧
    (∃ st', determine_outlet dTwo (Ident.num 2) ⟨0, 2, []⟩ = .ok (2, st')) ∧
    determine_outlet dTwo (Ident.num 3) ⟨0, 2, []⟩ =
      .error (.outOfRange 3) ∧
    determine_outlet dTwo (Ident.str "nope") ⟨0, 2, []⟩ =
      .error (.unknownName "nope") ∧
    determine_outlet dTwo (Ident.str "B") ⟨0, 2, []⟩ =
      .ok (2, (statuslist dTwo ⟨0, 2, []⟩).2) :=
  ⟨c1_outlet_resolution.1 dTwo ⟨0, 2, []⟩ 1 1 ⟨1, 2, [Ev.get "index.htm"]⟩
      (by decide),
   c1_outlet_resolution.2.1 dTwo ⟨0, 2, []⟩ 2 (by decide) (by decide)
      (by decide),
   c1_outlet_resolution.2.2.1 dTwo ⟨0, 2, []⟩ 3 (by decide)
      (by decide) (by decide),
   c1_outlet_resolution.2.2.2.1 dTwo ⟨0, 2, []⟩ "nope" (by decide)
      (by decide),
   c1_outlet_resolution.2.2.2.2 dTwo ⟨0, 2, []⟩ "B" 2 (by decide)⟩

/-! ## C2/C3 — page parser -/

/-- A synthetic admin-layout row: 5 `td` cells, the third holding a `font`
element with the state text. -/
def synthRow (numS nameS stS : String) : Node :=
  .elem "tr"
    [.elem "td" [.text numS], .elem "td" [.text nameS],
     .elem "td" [.elem "font" [.text stS]], .elem "td" [], .elem "td" []]

/-- A synthetic admin-layout page: a table of rows `(1, "A", "ON")` and
`(2, "B", "OFF")`, with the anchor cell `td "1"` three levels below the
document. -/
def synthDoc : Node :=
  .elem "[document]"
    [.elem "table" [synthRow "1" "A" "ON", synthRow "2" "B" "OFF"]]

/-- A synthetic restricted-user page: a `th "#"` header row and the same
two outlets, the number cells padded (`" 1"`) so that no `td` has string
exactly `"1"`. -/
def synthUserDoc : Node :=
  .elem "[document]"
    [.elem "table"
       [.elem "tr"
          [.elem "th" [.text "#"], .elem "th" [.text "Name"],
           .elem "th" [.text "State"]],
        synthRow " 1" "A" "ON", synthRow " 2" "B" "OFF"]]

/-- A row whose cell count is not 5 contributes nothing and no error. -/
theorem extractRow_not5 {tr : Node}
    (h : (findAll (isTag "td") tr).length ≠ 5) : extractRow tr = .ok none := by
  unfold extractRow
  exact if_neg h

/-- Unfolding equation for the row loop on a nonempty list. -/
theorem processRows_cons (tr : Node) (rest : List Node) :
    processRows (tr :: rest) =
      match extractRow tr with
      | .error e => .error e
      | .ok r? =>
        match processRows rest with
        | .error e => .error e
        | .ok rs =>
          match r? with
          | some r => .ok (r :: rs)
          | none => .ok rs := rfl

/-- Rows with a cell count other than 5 are skipped: the row loop gives the
same outcome on the full row list and on the 5-cell rows alone. -/
theorem processRows_skip (trs : List Node) :
    processRows trs =
      processRows
        (trs.filter fun tr => (findAll (isTag "td") tr).length == 5) := by
  induction trs with
  | nil => rfl
  | cons tr rest ih =>
    by_cases h : (findAll (isTag "td") tr).length = 5
    · rw [List.filter_cons_of_pos (by simpa using h), processRows_cons,
        processRows_cons, ih]
    · rw [List.filter_cons_of_neg (by simpa using h), processRows_cons,
        extractRow_not5 h, ← ih]
      cases processRows rest <;> rfl

/-- C2: status parsing.  On the synthetic admin-layout table the parser
anchors on the `td` cell `"1"`, walks three ancestor levels to the table
root, and emits exactly `(1, "A", "ON")` then `(2, "B", "OFF")` in
document order with the admin flag intact; rows with a cell count other
than 5 are skipped without error (stated for every row list); and when no
`td "1"` anchor exists the parser flips the admin flag to false and
anchors on the `th "#"` header instead, extracting the same records. -/
theorem c2_parse_admin_layout :
    parse_status (some synthDoc) true =
      .ok ([⟨1, some "A", "ON"⟩, ⟨2, some "B", "OFF"⟩], true) ∧
    (∀ trs : List Node, processRows trs =
      processRows
        (trs.filter fun tr => (findAll (isTag "td") tr).length == 5)) ∧
    parse_status (some synthUserDoc) true =
      .ok ([⟨1, some "A", "ON"⟩, ⟨2, some "B", "OFF"⟩], false) :=
  ⟨rfl, processRows_skip, rfl⟩

/-- C3 counterexample: on the malformed page `<td>1</td>` the anchor cell
has fewer than three ancestors, the `.parent.parent.parent` chain runs off
the tree, and an `AttributeError` propagates out of the parser — the
claim's "never lets an exception propagate" is false. -/
theorem c3_counterexample :
    parse_status (some (.elem "[document]" [.elem "td" [.text "1"]])) true =
      .error .attributeError := rfl

/-- C3 (amended): parser totality on anchorless input.  An absent page
yields no outlets with the admin flag untouched, and a page containing
neither a `td "1"` nor a `th "#"` anchor yields no outlets with the admin
flag set false — no exception in either case.  (Totality fails only on
malformed pages: a shallow anchor, or a 5-cell row with an unusable
number or state cell, raises — see the counterexample.) -/
theorem c3_parser_totality :
    (∀ a : Bool, parse_status none a = .ok ([], a)) ∧
    (∀ (doc : Node) (a : Bool),
        findPathNode (isTagWithString "td" "1") doc = none →
        findPathNode (isTagWithString "th" "#") doc = none →
        parse_status (some doc) a = .ok ([], false)) := by
  constructor
  · intro a
    rfl
  · intro doc a h1 h2
    simp only [parse_status, h1, h2]

/-- C3 witness: totality applied to an absent page and to a concrete
anchorless page. -/
theorem c3_parser_totality_witness :
    parse_status none true = .ok ([], true) ∧
    parse_status (some (.elem "[document]" [.text "nothing"])) true =
      .ok ([], false) :=
  ⟨c3_parser_totality.1 true,
   c3_parser_totality.2 (.elem "[document]" [.text "nothing"]) true rfl rfl⟩

/-! ## C4 — unreachable device -/

/-- On an unreachable device `statuslist` returns the empty list (and no
exception), only bumping the call counter and trace. -/
theorem statuslist_dEmpty (st : SwSt) :
    statuslist dEmpty st =
      ([], { st with calls := st.calls + 1,
                     trace := st.trace ++ [Ev.get "index.htm"] }) := by
  unfold statuslist dEmpty
  rcases eq_or_ne st.len 0 with h | h <;> simp [h]

/-- On an unreachable device, with a previously cached outlet count of at
least 1, `status(1)` resolves outlet 1 against the cache, finds no record
in the (empty) live list, and returns `"Unknown"`. -/
theorem status_dEmpty_cached (st : SwSt) (h : 1 ≤ st.len) :
    status dEmpty (Ident.num 1) st =
      .ok ("Unknown",
        { st with calls := st.calls + 2,
                  trace := st.trace ++
                    [Ev.get "index.htm", Ev.get "index.htm"] }) := by
  have hL : ¬(st.len = 0) := by omega
  have hcond : ¬((1 : Int) ≤ 0 ∨ ((st.len : Nat) : Int) < 1) := by omega
  simp [status, determine_outlet, statuslist, lenM, findMatch, dEmpty,
    Ident.pyInt, Ident.truthy, hL, hcond]

/-- C4 (amended): unreachable-device degradation.  When every fetch fails,
`statuslist()` returns an empty sequence without raising (both at the
parse layer, where an absent fetch short-circuits, and at the client
layer); and `status(1)` returns `"Unknown"` provided a positive outlet
count was cached by an earlier successful parse.  (Without such a cache
`status(1)` instead raises the resolver's out-of-range error — see the
counterexample.) -/
theorem c4_unreachable_degradation :
    (∀ a : Bool, parse_status none a = .ok ([], a)) ∧
    (∀ st : SwSt, statuslist dEmpty st =
      ([], { st with calls := st.calls + 1,
                     trace := st.trace ++ [Ev.get "index.htm"] })) ∧
    (∀ st : SwSt, 1 ≤ st.len →
      status dEmpty (Ident.num 1) st =
        .ok ("Unknown",
          { st with calls := st.calls + 2,
                    trace := st.trace ++
                      [Ev.get "index.htm", Ev.get "index.htm"] })) :=
  ⟨fun _ => rfl, statuslist_dEmpty, status_dEmpty_cached⟩

/-- C4 witness: the degradation facts at a concrete state with cached
count 8. -/
theorem c4_unreachable_degradation_witness :
    parse_status none true = .ok ([], true) ∧
    statuslist dEmpty ⟨0, 8, []⟩ = ([], ⟨1, 8, [Ev.get "index.htm"]⟩) ∧
    status dEmpty (Ident.num 1) ⟨0, 8, []⟩ =
      .ok ("Unknown", ⟨2, 8, [Ev.get "index.htm", Ev.get "index.htm"]⟩) :=
  ⟨c4_unreachable_degradation.1 true,
   c4_unreachable_degradation.2.1 ⟨0, 8, []⟩,
   c4_unreachable_degradation.2.2 ⟨0, 8, []⟩ (by decide)⟩

/-- C4 counterexample: on a client that has never seen the device (no
cached outlet count), `status(1)` does not return `"Unknown"` — the
resolver's bounds check compares 1 against a cached count of 0 and raises
`DLIPowerException("Outlet number 1 out of range")`. -/
theorem c4_counterexample :
    status dEmpty (Ident.num 1) ⟨0, 0, []⟩ = .error (.outOfRange 1) := rfl

/-! ## C6 — on/off confirmation semantics -/

/-- A device like `dTwo` but with outlet 1 off and outlet 2 on. -/
def dTwoOff : Device :=
  fun _ => [⟨1, some "A", "OFF"⟩, ⟨2, some "B", "ON"⟩]

/-- The `off` command returns exactly the comparison of the post-command
status read against `"OFF"`. -/
theorem off_spec (d : Device) (outlet : Ident) (st : SwSt) (n : Int)
    (st1 : SwSt) (s : String) (st2 : SwSt)
    (h1 : determine_outlet d outlet st = .ok (n, st1))
    (h2 : status d outlet (pushGet ("outlet?" ++ toString n ++ "=OFF") st1) =
      .ok (s, st2)) :
    off d outlet st = .ok (s != "OFF", st2) := by
  simp only [off, h1, h2]

/-- The `on` command returns exactly the comparison of the post-command
status read against `"ON"`. -/
theorem on_spec (d : Device) (outlet : Ident) (st : SwSt) (n : Int)
    (st1 : SwSt) (s : String) (st2 : SwSt)
    (h1 : determine_outlet d outlet st = .ok (n, st1))
    (h2 : status d outlet (pushGet ("outlet?" ++ toString n ++ "=ON") st1) =
      .ok (s, st2)) :
    on' d outlet st = .ok (s != "ON", st2) := by
  simp only [on', h1, h2]

/-- C6: confirmation semantics of `on`/`off`.  Whenever the outlet
resolves, `off` reports failure (`true`) iff the post-command status read
is not `"OFF"`, and `on` iff it is not `"ON"`; consequently a post-read of
`"OFF"` makes `off` report success (`false`), and a post-read of `"ON"`
makes `on` report success — the idempotent cases. -/
theorem c6_on_off_confirmation :
    (∀ (d : Device) (outlet : Ident) (st : SwSt) (n : Int) (st1 : SwSt)
        (s : String) (st2 : SwSt),
      determine_outlet d outlet st = .ok (n, st1) →
      status d outlet (pushGet ("outlet?" ++ toString n ++ "=OFF") st1) =
        .ok (s, st2) →
      off d outlet st = .ok (s != "OFF", st2)) ∧
    (∀ (d : Device) (outlet : Ident) (st : SwSt) (n : Int) (st1 : SwSt)
        (s : String) (st2 : SwSt),
      determine_outlet d outlet st = .ok (n, st1) →
      status d outlet (pushGet ("outlet?" ++ toString n ++ "=ON") st1) =
        .ok (s, st2) →
      on' d outlet st = .ok (s != "ON", st2)) ∧
    (∀ (d : Device) (outlet : Ident) (st : SwSt) (n : Int) (st1 st2 : SwSt),
      determine_outlet d outlet st = .ok (n, st1) →
      status d outlet (pushGet ("outlet?" ++ toString n ++ "=OFF") st1) =
        .ok ("OFF", st2) →
      off d outlet st = .ok (false, st2)) ∧
    (∀ (d : Device) (outlet : Ident) (st : SwSt) (n : Int) (st1 st2 : SwSt),
      determine_outlet d outlet st = .ok (n, st1) →
      status d outlet (pushGet ("outlet?" ++ toString n ++ "=ON") st1) =
        .ok ("ON", st2) →
      on' d outlet st = .ok (false, st2)) := by
  refine ⟨off_spec, on_spec, ?_, ?_⟩
  · intro d outlet st n st1 st2 h1 h2
    simpa using off_spec d outlet st n st1 "OFF" st2 h1 h2
  · intro d outlet st n st1 st2 h1 h2
    simpa using on_spec d outlet st n st1 "ON" st2 h1 h2

/-- C6 witness: on the always-on device `off(1)` fails and `on(1)` succeeds
(already on); on the outlet-1-off device `off(1)` succeeds (already off)
and `on(1)` fails. -/
theorem c6_on_off_confirmation_witness :
    off dTwo (Ident.num 1) ⟨0, 2, []⟩ =
      .ok (true, ⟨3, 2, [Ev.get "index.htm", Ev.get "outlet?1=OFF",
        Ev.get "index.htm", Ev.get "index.htm"]⟩) ∧
    on' dTwo (Ident.num 1) ⟨0, 2, []⟩ =
      .ok (false, ⟨3, 2, [Ev.get "index.htm", Ev.get "outlet?1=ON",
        Ev.get "index.htm", Ev.get "index.htm"]⟩) ∧
    off dTwoOff (Ident.num 1) ⟨0, 2, []⟩ =
      .ok (false, ⟨3, 2, [Ev.get "index.htm", Ev.get "outlet?1=OFF",
        Ev.get "index.htm", Ev.get "index.htm"]⟩) ∧
    on' dTwoOff (Ident.num 1) ⟨0, 2, []⟩ =
      .ok (true, ⟨3, 2, [Ev.get "index.htm", Ev.get "outlet?1=ON",
        Ev.get "index.htm", Ev.get "index.htm"]⟩) := by
  refine ⟨?_, ?_, ?_, ?_⟩
  · simpa using c6_on_off_confirmation.1 dTwo (Ident.num 1) ⟨0, 2, []⟩ 1
      ⟨1, 2, [Ev.get "index.htm"]⟩ "ON"
      ⟨3, 2, [Ev.get "index.htm", Ev.get "outlet?1=OFF",
        Ev.get "index.htm", Ev.get "index.htm"]⟩ (by decide) (by decide)
  · exact c6_on_off_confirmation.2.2.2 dTwo (Ident.num 1) ⟨0, 2, []⟩ 1
      ⟨1, 2, [Ev.get "index.htm"]⟩
      ⟨3, 2, [Ev.get "index.htm", Ev.get "outlet?1=ON",
        Ev.get "index.htm", Ev.get "index.htm"]⟩ (by decide) (by decide)
  · exact c6_on_off_confirmation.2.2.1 dTwoOff (Ident.num 1) ⟨0, 2, []⟩ 1
      ⟨1, 2, [Ev.get "index.htm"]⟩
      ⟨3, 2, [Ev.get "index.htm", Ev.get "outlet?1=OFF",
        Ev.get "index.htm", Ev.get "index.htm"]⟩ (by decide) (by decide)
  · simpa using c6_on_off_confirmation.2.1 dTwoOff (Ident.num 1) ⟨0, 2, []⟩ 1
      ⟨1, 2, [Ev.get "index.htm"]⟩ "OFF"
      ⟨3, 2, [Ev.get "index.htm", Ev.get "outlet?1=ON",
        Ev.get "index.htm", Ev.get "index.htm"]⟩ (by decide) (by decide)

/-! ## C7 — cycle asymmetry -/

/-- C7: cycle asymmetry.  If `off` reports failure, `cycle` returns `true`
with exactly `off`'s final state — no sleep event, no `on` attempt; if
`off` reports success, `cycle` sleeps `cycletime` (the `pushSleep`), runs
`on`, and returns `false` whatever boolean `on` produced. -/
theorem c7_cycle_asymmetry :
    (∀ (d : Device) (ct : ℚ) (outlet : Ident) (st st' : SwSt),
      off d outlet st = .ok (true, st') →
      cycle d ct outlet st = .ok (true, st')) ∧
    (∀ (d : Device) (ct : ℚ) (outlet : Ident) (st st' : SwSt) (b2 : Bool)
        (st2 : SwSt),
      off d outlet st = .ok (false, st') →
      on' d outlet (pushSleep ct st') = .ok (b2, st2) →
      cycle d ct outlet st = .ok (false, st2)) := by
  constructor
  · intro d ct outlet st st' h
    simp [cycle, h]
  · intro d ct outlet st st' b2 st2 h h2
    simp [cycle, h, h2]

/-- C7 witness: on the always-on device `off(1)` fails and `cycle(1)`
stops right there; on the outlet-1-off device `off(1)` succeeds, `cycle`
sleeps 3 seconds, runs `on` (which fails — the outlet stays off on that
device), and still returns `false`. -/
theorem c7_cycle_asymmetry_witness :
    cycle dTwo 3 (Ident.num 1) ⟨0, 2, []⟩ =
      .ok (true, ⟨3, 2, [Ev.get "index.htm", Ev.get "outlet?1=OFF",
        Ev.get "index.htm", Ev.get "index.htm"]⟩) ∧
    cycle dTwoOff 3 (Ident.num 1) ⟨0, 2, []⟩ =
      .ok (false, ⟨6, 2, [Ev.get "index.htm", Ev.get "outlet?1=OFF",
        Ev.get "index.htm", Ev.get "index.htm", Ev.sleep 3,
        Ev.get "index.htm", Ev.get "outlet?1=ON", Ev.get "index.htm",
        Ev.get "index.htm"]⟩) :=
  ⟨c7_cycle_asymmetry.1 dTwo 3 (Ident.num 1) ⟨0, 2, []⟩
      ⟨3, 2, [Ev.get "index.htm", Ev.get "outlet?1=OFF",
        Ev.get "index.htm", Ev.get "index.htm"]⟩ (by decide),
   c7_cycle_asymmetry.2 dTwoOff 3 (Ident.num 1) ⟨0, 2, []⟩
      ⟨3, 2, [Ev.get "index.htm", Ev.get "outlet?1=OFF",
        Ev.get "index.htm", Ev.get "index.htm"]⟩ true
      ⟨6, 2, [Ev.get "index.htm", Ev.get "outlet?1=OFF",
        Ev.get "index.htm", Ev.get "index.htm", Ev.sleep 3,
        Ev.get "index.htm", Ev.get "outlet?1=ON", Ev.get "index.htm",
        Ev.get "index.htm"]⟩ (by decide) (by decide)⟩

/-! ## C9 — rename round trip -/

/-- Whenever the outlet resolves, `set_outlet_name` issues the
`unitnames.cgi` GET built from the RAW identifier (not the resolved
number) and returns success exactly when the follow-up `get_outlet_name`
read equals the new name. -/
theorem set_outlet_name_spec (d : Device) (outlet : Ident) (name : String)
    (st : SwSt) (n : Int) (st1 : SwSt) (g : Option String) (st2 : SwSt)
    (h1 : determine_outlet d outlet st = .ok (n, st1))
    (h2 : get_outlet_name d outlet
        (pushGet ("unitnames.cgi?outname" ++ outlet.format ++ "=" ++
          quote name) st1) = .ok (g, st2)) :
    set_outlet_name d outlet name st = .ok (g == some name, st2) := by
  simp only [set_outlet_name, h1, h2]

/-- C9 (amended): rename round trip.  `set_outlet_name(k, name)` validates
`k` through the resolver, then GETs
`unitnames.cgi?outname{k}={quote(name)}` — interpolating the raw
identifier `k`, which coincides with the resolved number only when `k` is
the outlet number itself (third conjunct) — and returns success exactly
when the subsequent `get_outlet_name(k)` equals the new name (so a
successful rename implies `get_outlet_name(k) = name`, the final
conjunct). -/
theorem c9_rename_round_trip :
    (∀ (d : Device) (outlet : Ident) (name : String) (st : SwSt) (n : Int)
        (st1 : SwSt) (g : Option String) (st2 : SwSt),
      determine_outlet d outlet st = .ok (n, st1) →
      get_outlet_name d outlet
        (pushGet ("unitnames.cgi?outname" ++ outlet.format ++ "=" ++
          quote name) st1) = .ok (g, st2) →
      set_outlet_name d outlet name st = .ok (g == some name, st2)) ∧
    (∀ k : Int, (Ident.num k).format = toString k) ∧
    (∀ (d : Device) (outlet : Ident) (name : String) (st : SwSt) (n : Int)
        (st1 : SwSt) (g : Option String) (st2 : SwSt),
      determine_outlet d outlet st = .ok (n, st1) →
      get_outlet_name d outlet
        (pushGet ("unitnames.cgi?outname" ++ outlet.format ++ "=" ++
          quote name) st1) = .ok (g, st2) →
      (set_outlet_name d outlet name st = .ok (true, st2) ↔ g = some name)) := by
  refine ⟨set_outlet_name_spec, fun _ => rfl, ?_⟩
  intro d outlet name st n st1 g st2 h1 h2
  rw [set_outlet_name_spec d outlet name st n st1 g st2 h1 h2]
  constructor
  · intro h
    have : (g == some name) = true := by
      have := congrArg (fun x => match x with
        | Except.ok (b, _) => b
        | Except.error _ => false) h
      simpa using this
    exact eq_of_beq this
  · intro h
    subst h
    simp

/-- C9 witness: renaming outlet 2 (addressed by its number, where the raw
identifier and the resolved number coincide) to `"X"` fails — the read
still says `"B"` — while "renaming" it to its current name `"B"` reports
success, exhibiting the success-iff-read-back contract. -/
theorem c9_rename_round_trip_witness :
    set_outlet_name dTwo (Ident.num 2) "X" ⟨0, 2, []⟩ =
      .ok (false, ⟨3, 2, [Ev.get "index.htm",
        Ev.get "unitnames.cgi?outname2=X", Ev.get "index.htm",
        Ev.get "index.htm"]⟩) ∧
    set_outlet_name dTwo (Ident.num 2) "B" ⟨0, 2, []⟩ =
      .ok (true, ⟨3, 2, [Ev.get "index.htm",
        Ev.get "unitnames.cgi?outname2=B", Ev.get "index.htm",
        Ev.get "index.htm"]⟩) := by
  constructor
  · simpa using c9_rename_round_trip.1 dTwo (Ident.num 2) "X" ⟨0, 2, []⟩ 2
      ⟨1, 2, [Ev.get "index.htm"]⟩ (some "B")
      ⟨3, 2, [Ev.get "index.htm", Ev.get "unitnames.cgi?outname2=X",
        Ev.get "index.htm", Ev.get "index.htm"]⟩ (by decide) (by decide)
  · simpa using c9_rename_round_trip.1 dTwo (Ident.num 2) "B" ⟨0, 2, []⟩ 2
      ⟨1, 2, [Ev.get "index.htm"]⟩ (some "B")
      ⟨3, 2, [Ev.get "index.htm", Ev.get "unitnames.cgi?outname2=B",
        Ev.get "index.htm", Ev.get "index.htm"]⟩ (by decide) (by decide)

/-- C9 counterexample: renaming outlet 2 by its NAME `"A"`… the resolver
maps `"A"` to outlet number 1, but the GET the code issues is
`unitnames.cgi?outnameA=X` — the raw identifier, not the resolved number
1 the claim promises; no `outname1` request ever appears in the trace. -/
theorem c9_counterexample :
    determine_outlet dTwo (Ident.str "A") ⟨0, 2, []⟩ =
      .ok (1, ⟨1, 2, [Ev.get "index.htm"]⟩) ∧
    set_outlet_name dTwo (Ident.str "A") "X" ⟨0, 2, []⟩ =
      .ok (false, ⟨3, 2, [Ev.get "index.htm",
        Ev.get "unitnames.cgi?outnameA=X", Ev.get "index.htm",
        Ev.get "index.htm"]⟩) ∧
    Ev.get ("unitnames.cgi?outname" ++ toString (1 : Int) ++ "=" ++
        quote "X") ∉
      [Ev.get "index.htm", Ev.get "unitnames.cgi?outnameA=X",
       Ev.get "index.htm", Ev.get "index.htm"] := by
  refine ⟨by decide, by decide, by decide⟩

/-! ## C5 — login never raises? -/

/-- A device whose challenge page carries no `Challenge` input field. -/
def devNoChallenge : LoginDevice :=
  { get1 := .ok { isRedirect := false, location := "", inputs := [] }
    get2 := .ok { isRedirect := false, location := "", inputs := [] }
    post := .ok { status := 200, setCookie := true } }

/-- A device refusing the initial connection. -/
def devConnFail : LoginDevice :=
  { get1 := .error .connectionError
    get2 := .ok { isRedirect := false, location := "", inputs := [] }
    post := .ok { status := 200, setCookie := true } }

/-- A device that redirects and then refuses the follow-up connection. -/
def devRedirectFail : LoginDevice :=
  { get1 := .ok { isRedirect := true, location := "http://h2/", inputs := [] }
    get2 := .error .connectionError
    post := .ok { status := 200, setCookie := true } }

/-- A device whose challenge page is fine but whose login POST times out
on connect. -/
def devPostTimeout : LoginDevice :=
  { get1 := .ok ⟨false, "", [(some "Challenge", "abc")]⟩
    get2 := .ok ⟨false, "", []⟩
    post := .error .connectTimeout }

/-- A fully cooperative device. -/
def devOk : LoginDevice :=
  { get1 := .ok ⟨false, "", [(some "Challenge", "abc")]⟩
    get2 := .ok ⟨false, "", []⟩
    post := .ok { status := 200, setCookie := true } }

/-- C5 counterexample: on a device whose challenge page has no `Challenge`
form field, `login()` raises `KeyError("Challenge")` (the field is read
with a bare dict subscript) instead of returning normally as the claim
promises for every device response. -/
theorem c5_counterexample :
    login devNoChallenge "http://h" "admin" "4321" (fun s => s) =
      .error (.keyError "Challenge") := rfl

/-- C5 (amended): `login` failure handling.  A connection error or connect
timeout on the initial GET (or on the re-GET after a redirect) is caught:
login returns normally with `session = None` and `secure_login` false; a
connect timeout on the POST likewise; and on a completed POST login
returns normally, secure exactly when the reply is HTTP 200 with a
cookie.  (It is not exception-free in general: a missing `Challenge`
field raises `KeyError` — the counterexample — and a read timeout on a
GET, or a connection error or read timeout on the POST, propagates.) -/
theorem c5_login_failure_handling :
    (∀ (dev : LoginDevice) (b u p : String) (f : String → String)
        (e : TExc),
      dev.get1 = .error e → e ≠ .readTimeout →
      login dev b u p f = .ok ⟨false, false, b⟩) ∧
    (∀ (dev : LoginDevice) (b u p : String) (f : String → String)
        (r1 : GetResp) (e : TExc),
      dev.get1 = .ok r1 → r1.isRedirect = true → dev.get2 = .error e →
      e ≠ .readTimeout →
      login dev b u p f = .ok ⟨false, false, rstripSlash r1.location⟩) ∧
    (∀ (dev : LoginDevice) (b u p : String) (f : String → String)
        (r1 : GetResp) (ch : String),
      dev.get1 = .ok r1 → r1.isRedirect = false →
      fieldsLookup r1.inputs "Challenge" = some ch →
      dev.post = .error .connectTimeout →
      login dev b u p f = .ok ⟨false, false, b⟩) ∧
    (∀ (dev : LoginDevice) (b u p : String) (f : String → String)
        (r1 : GetResp) (ch : String) (pr : PostResp),
      dev.get1 = .ok r1 → r1.isRedirect = false →
      fieldsLookup r1.inputs "Challenge" = some ch →
      dev.post = .ok pr →
      login dev b u p f =
        .ok ⟨pr.status == 200 && pr.setCookie, true, b⟩) := by
  refine ⟨?_, ?_, ?_, ?_⟩
  · intro dev b u p f e h he
    cases e with
    | readTimeout => exact absurd rfl he
    | connectTimeout => simp [login, h]
    | connectionError => simp [login, h]
  · intro dev b u p f r1 e h1 hr h2 he
    cases e with
    | readTimeout => exact absurd rfl he
    | connectTimeout => simp [login, h1, hr, h2]
    | connectionError => simp [login, h1, hr, h2]
  · intro dev b u p f r1 ch h1 hr hch hp
    simp [login, h1, hr, hch, hp]
  · intro dev b u p f r1 ch pr h1 hr hch hp
    simp [login, h1, hr, hch, hp]

/-- C5 witness: the four return-normally shapes at concrete devices — a
refused connection, a refused post-redirect connection (note the rewritten
base URL, trailing slash stripped), a connect-timeout on the POST, and a
successful cookie login. -/
theorem c5_login_failure_handling_witness :
    login devConnFail "http://h" "admin" "4321" (fun s => s) =
      .ok ⟨false, false, "http://h"⟩ ∧
    login devRedirectFail "http://h" "admin" "4321" (fun s => s) =
      .ok ⟨false, false, rstripSlash "http://h2/"⟩ ∧
    login devPostTimeout "http://h" "admin" "4321" (fun s => s) =
      .ok ⟨false, false, "http://h"⟩ ∧
    login devOk "http://h" "admin" "4321" (fun s => s) =
      .ok ⟨(200 == 200) && true, true, "http://h"⟩ :=
  ⟨c5_login_failure_handling.1 devConnFail "http://h" "admin" "4321"
      (fun s => s) .connectionError rfl (by decide),
   c5_login_failure_handling.2.1 devRedirectFail "http://h" "admin" "4321"
      (fun s => s) ⟨true, "http://h2/", []⟩ .connectionError rfl rfl rfl
      (by decide),
   c5_login_failure_handling.2.2.1 devPostTimeout "http://h" "admin" "4321"
      (fun s => s) ⟨false, "", [(some "Challenge", "abc")]⟩ "abc"
      rfl rfl rfl rfl,
   c5_login_failure_handling.2.2.2 devOk "http://h" "admin" "4321"
      (fun s => s) ⟨false, "", [(some "Challenge", "abc")]⟩ "abc"
      ⟨200, true⟩ rfl rfl rfl rfl⟩

/-! ## C8 — dispatcher aggregation -/

/-- On a single-element list with a boolean-returning operation the
dispatcher passes the bare result back. -/
theorem command_single_bool (run : Ident → OpResult) (o : Ident) (b : Bool)
    (h : run o = .bool b) :
    command_on_outlets run [o] = .ok (.bool b) := by
  simp [command_on_outlets, h]

/-- On a single-element list with a string-returning operation the
dispatcher wraps the result in a one-element list. -/
theorem command_single_str (run : Ident → OpResult) (o : Ident) (s : String)
    (h : run o = .str s) :
    command_on_outlets run [o] = .ok (.list [.str s]) := by
  simp [command_on_outlets, h, OpResult.val]

/-- On a multi-element list the dispatcher is the aggregation of the
per-outlet results in identifier-list order. -/
theorem command_multi (run : Ident → OpResult) (outlets : List Ident)
    (hl : outlets.length ≠ 1) :
    command_on_outlets run outlets = aggregate (outlets.map run) := by
  simp [command_on_outlets, hl]

/-- Boolean aggregation, failure case: if all results are booleans and some
invocation reports failure (`true`), the aggregate is `True`. -/
theorem command_multi_bool_any_true (run : Ident → OpResult)
    (outlets : List Ident) (hl : 2 ≤ outlets.length)
    (hb : ∀ o ∈ outlets, ∃ b, run o = OpResult.bool b)
    (o : Ident) (ho : o ∈ outlets) (htrue : run o = .bool true) :
    command_on_outlets run outlets = .ok (.bool true) := by
  match outlets, hl with
  | o0 :: rest, hl2 =>
    rw [command_multi run (o0 :: rest)
      (by simp only [List.length_cons] at hl2 ⊢; omega)]
    obtain ⟨b0, hb0⟩ := hb o0 (List.mem_cons_self o0 rest)
    have hany : ((o0 :: rest).map run).any OpResult.truthy = true := by
      refine List.any_eq_true.mpr ⟨run o, List.mem_map_of_mem run ho, ?_⟩
      rw [htrue]
      rfl
    simp only [List.map_cons, hb0] at hany ⊢
    unfold aggregate
    simp [hany]

/-- Boolean aggregation, success case: if every invocation reports success
(`false`), the aggregate is the first element's value, `false`. -/
theorem command_multi_bool_all_false (run : Ident → OpResult)
    (outlets : List Ident) (hl : 2 ≤ outlets.length)
    (hall : ∀ o ∈ outlets, run o = OpResult.bool false) :
    command_on_outlets run outlets = .ok (.bool false) := by
  match outlets, hl with
  | o0 :: rest, hl2 =>
    rw [command_multi run (o0 :: rest)
      (by simp only [List.length_cons] at hl2 ⊢; omega)]
    have hb0 := hall o0 (List.mem_cons_self o0 rest)
    have hany : ((o0 :: rest).map run).any OpResult.truthy = false := by
      refine List.any_eq_false.mpr ?_
      intro x hx
      obtain ⟨o, ho, rfl⟩ := List.mem_map.mp hx
      rw [hall o ho]
      exact Bool.false_ne_true
    simp only [List.map_cons, hb0] at hany ⊢
    unfold aggregate
    simp [hany, OpResult.val]

/-- String aggregation: if all results are strings, the aggregate is the
ordered list of all results, in identifier-list order. -/
theorem command_multi_str (run : Ident → OpResult) (outlets : List Ident)
    (hl : 2 ≤ outlets.length)
    (hs : ∀ o ∈ outlets, ∃ s, run o = OpResult.str s) :
    command_on_outlets run outlets =
      .ok (.list ((outlets.map run).map OpResult.val)) := by
  match outlets, hl with
  | o0 :: rest, hl2 =>
    rw [command_multi run (o0 :: rest)
      (by simp only [List.length_cons] at hl2 ⊢; omega)]
    obtain ⟨s0, hs0⟩ := hs o0 (List.mem_cons_self o0 rest)
    simp only [List.map_cons, hs0]
    unfold aggregate
    simp [OpResult.val]

/-- C8 counterexample: for the single identifier list `[1]` under a
string-returning operation, `command_on_outlets` returns the one-element
LIST `[.str "ON"]`, not the operation's raw result `.str "ON"` the claim
promises (the code's own docstring says "Operations that return a string
will return a list of strings"). -/
theorem c8_counterexample :
    command_on_outlets (fun _ => OpResult.str "ON") [Ident.num 1] =
      .ok (.list [.str "ON"]) ∧
    PyVal.list [.str "ON"] ≠
      ((fun _ => OpResult.str "ON") (Ident.num 1)).val := by
  constructor
  · rfl
  · intro h
    cases h

/-- C8 (amended): dispatcher aggregation.  A single-element list returns
the raw result for boolean-returning operations but wraps a string result
in a one-element list; a multi-element list whose per-outlet results are
booleans aggregates to `true` when any result is `true` and to the first
element's value `false` when all succeed; and a multi-element list whose
results are strings aggregates to the ordered list of all results in
identifier-list order. -/
theorem c8_dispatcher_aggregation :
    (∀ (run : Ident → OpResult) (o : Ident) (b : Bool),
      run o = .bool b → command_on_outlets run [o] = .ok (.bool b)) ∧
    (∀ (run : Ident → OpResult) (o : Ident) (s : String),
      run o = .str s →
      command_on_outlets run [o] = .ok (.list [.str s])) ∧
    (∀ (run : Ident → OpResult) (outlets : List Ident), 2 ≤ outlets.length →
      (∀ o ∈ outlets, ∃ b, run o = OpResult.bool b) →
      ∀ o ∈ outlets, run o = .bool true →
      command_on_outlets run outlets = .ok (.bool true)) ∧
    (∀ (run : Ident → OpResult) (outlets : List Ident), 2 ≤ outlets.length →
      (∀ o ∈ outlets, run o = OpResult.bool false) →
      command_on_outlets run outlets = .ok (.bool false)) ∧
    (∀ (run : Ident → OpResult) (outlets : List Ident), 2 ≤ outlets.length →
      (∀ o ∈ outlets, ∃ s, run o = OpResult.str s) →
      command_on_outlets run outlets =
        .ok (.list ((outlets.map run).map OpResult.val))) :=
  ⟨command_single_bool, command_single_str,
   fun run outlets hl hb o ho htrue =>
     command_multi_bool_any_true run outlets hl hb o ho htrue,
   command_multi_bool_all_false, command_multi_str⟩

/-- C8 witness: the aggregation shapes at concrete runs — a lone boolean
passes through bare; a lone string is wrapped; one failing outlet of two
fails the batch; two succeeding outlets aggregate to `false`; two string
results come back as an ordered list. -/
theorem c8_dispatcher_aggregation_witness :
    command_on_outlets (fun _ => OpResult.bool false) [Ident.num 1] =
      .ok (.bool false) ∧
    command_on_outlets (fun _ => OpResult.str "OFF") [Ident.num 1] =
      .ok (.list [.str "OFF"]) ∧
    command_on_outlets (fun o => OpResult.bool (o == Ident.num 2))
      [Ident.num 1, Ident.num 2] = .ok (.bool true) ∧
    command_on_outlets (fun _ => OpResult.bool false)
      [Ident.num 1, Ident.num 2] = .ok (.bool false) ∧
    command_on_outlets (fun o => OpResult.str (if o == Ident.num 1 then "ON" else "OFF"))
      [Ident.num 1, Ident.num 2] = .ok (.list [.str "ON", .str "OFF"]) := by
  refine ⟨?_, ?_, ?_, ?_, ?_⟩
  · exact c8_dispatcher_aggregation.1 (fun _ => OpResult.bool false)
      (Ident.num 1) false rfl
  · exact c8_dispatcher_aggregation.2.1 (fun _ => OpResult.str "OFF")
      (Ident.num 1) "OFF" rfl
  · exact c8_dispatcher_aggregation.2.2.1
      (fun o => OpResult.bool (o == Ident.num 2))
      [Ident.num 1, Ident.num 2] (by decide)
      (fun o _ => ⟨o == Ident.num 2, rfl⟩) (Ident.num 2) (by decide)
      (by decide)
  · exact c8_dispatcher_aggregation.2.2.2.1 (fun _ => OpResult.bool false)
      [Ident.num 1, Ident.num 2] (by decide) (fun o _ => rfl)
  · simpa using c8_dispatcher_aggregation.2.2.2.2
      (fun o => OpResult.str (if o == Ident.num 1 then "ON" else "OFF"))
      [Ident.num 1, Ident.num 2] (by decide)
      (fun o _ => ⟨if o == Ident.num 1 then "ON" else "OFF", rfl⟩)

/-! ## C10 — constructor falsy arguments -/

/-- A falsy string argument (`None` or `""`) defers to the configuration. -/
theorem chooseStr_falsy (a : Option String) (cfg : String)
    (h : a = none ∨ a = some "") : chooseStr a cfg = cfg := by
  rcases h with rfl | rfl <;> simp [chooseStr]

/-- A truthy string argument overrides the configuration. -/
theorem chooseStr_truthy (s : String) (cfg : String) (h : s ≠ "") :
    chooseStr (some s) cfg = s := by
  simp [chooseStr, h]

/-- A falsy rational argument (`None` or `0`) defers to the configuration. -/
theorem chooseQ_falsy (a : Option ℚ) (cfg : ℚ)
    (h : a = none ∨ a = some 0) : chooseQ a cfg = cfg := by
  rcases h with rfl | rfl <;> simp [chooseQ]

/-- A truthy rational argument overrides the configuration. -/
theorem chooseQ_truthy (q : ℚ) (cfg : ℚ) (h : q ≠ 0) :
    chooseQ (some q) cfg = q := by
  simp [chooseQ, h]

/-- A falsy integer argument (`None` or `0`) defers to the configuration. -/
theorem chooseInt_falsy (a : Option Int) (cfg : Int)
    (h : a = none ∨ a = some 0) : chooseInt a cfg = cfg := by
  rcases h with rfl | rfl <;> simp [chooseInt]

/-- A truthy integer argument overrides the configuration. -/
theorem chooseInt_truthy (n : Int) (cfg : Int) (h : n ≠ 0) :
    chooseInt (some n) cfg = n := by
  simp [chooseInt, h]

/-- C10: every constructor parameter among userid, password, hostname,
timeout, cycletime and retries takes the loaded configuration's value
whenever the explicit argument is falsy (`None`, `""`, `0`) — so
`timeout=0`, `retries=0` or `password=""` can never take effect — and the
explicit argument's value exactly when it is truthy; and the loaded
configuration itself falls back to `CONFIG_DEFAULTS` when the file is
missing or unparseable. -/
theorem c10_init_falsy_defaults :
    (∀ (cfg : Config) (https : Bool) (ua pa ha : Option String)
        (ta ca : Option ℚ) (ra : Option Int),
      ((ua = none ∨ ua = some "") →
        (PowerSwitch.init ua pa ha ta ca ra https cfg).userid = cfg.userid) ∧
      (∀ s, ua = some s → s ≠ "" →
        (PowerSwitch.init ua pa ha ta ca ra https cfg).userid = s) ∧
      ((pa = none ∨ pa = some "") →
        (PowerSwitch.init ua pa ha ta ca ra https cfg).password =
          cfg.password) ∧
      (∀ s, pa = some s → s ≠ "" →
        (PowerSwitch.init ua pa ha ta ca ra https cfg).password = s) ∧
      ((ha = none ∨ ha = some "") →
        (PowerSwitch.init ua pa ha ta ca ra https cfg).hostname =
          cfg.hostname) ∧
      (∀ s, ha = some s → s ≠ "" →
        (PowerSwitch.init ua pa ha ta ca ra https cfg).hostname = s) ∧
      ((ta = none ∨ ta = some 0) →
        (PowerSwitch.init ua pa ha ta ca ra https cfg).timeout =
          cfg.timeout) ∧
      (∀ q, ta = some q → q ≠ 0 →
        (PowerSwitch.init ua pa ha ta ca ra https cfg).timeout = q) ∧
      ((ca = none ∨ ca = some 0) →
        (PowerSwitch.init ua pa ha ta ca ra https cfg).cycletime =
          cfg.cycletime) ∧
      (∀ q, ca = some q → q ≠ 0 →
        (PowerSwitch.init ua pa ha ta ca ra https cfg).cycletime = q) ∧
      ((ra = none ∨ ra = some 0) →
        (PowerSwitch.init ua pa ha ta ca ra https cfg).retries =
          cfg.retries) ∧
      (∀ n, ra = some n → n ≠ 0 →
        (PowerSwitch.init ua pa ha ta ca ra https cfg).retries = n)) ∧
    load_configuration none = CONFIG_DEFAULTS ∧
    load_configuration (some none) = CONFIG_DEFAULTS := by
  refine ⟨?_, rfl, rfl⟩
  intro cfg https ua pa ha ta ca ra
  refine ⟨fun h => chooseStr_falsy ua cfg.userid h,
    fun s hs hne => ?_,
    fun h => chooseStr_falsy pa cfg.password h,
    fun s hs hne => ?_,
    fun h => chooseStr_falsy ha cfg.hostname h,
    fun s hs hne => ?_,
    fun h => chooseQ_falsy ta cfg.timeout h,
    fun q hq hne => ?_,
    fun h => chooseQ_falsy ca cfg.cycletime h,
    fun q hq hne => ?_,
    fun h => chooseInt_falsy ra cfg.retries h,
    fun n hn hne => ?_⟩
  · rw [show (PowerSwitch.init ua pa ha ta ca ra https cfg).userid =
      chooseStr ua cfg.userid from rfl, hs, chooseStr_truthy s _ hne]
  · rw [show (PowerSwitch.init ua pa ha ta ca ra https cfg).password =
      chooseStr pa cfg.password from rfl, hs, chooseStr_truthy s _ hne]
  · rw [show (PowerSwitch.init ua pa ha ta ca ra https cfg).hostname =
      chooseStr ha cfg.hostname from rfl, hs, chooseStr_truthy s _ hne]
  · rw [show (PowerSwitch.init ua pa ha ta ca ra https cfg).timeout =
      chooseQ ta cfg.timeout from rfl, hq, chooseQ_truthy q _ hne]
  · rw [show (PowerSwitch.init ua pa ha ta ca ra https cfg).cycletime =
      chooseQ ca cfg.cycletime from rfl, hq, chooseQ_truthy q _ hne]
  · rw [show (PowerSwitch.init ua pa ha ta ca ra https cfg).retries =
      chooseInt ra cfg.retries from rfl, hn, chooseInt_truthy n _ hne]

/-- C10 witness: against a configuration that differs from every built-in
default, explicitly passing `password=""`, `timeout=0`, `retries=0` (and
`None` for the rest) leaves every field at the configuration's value,
while truthy arguments override it. -/
theorem c10_init_falsy_defaults_witness :
    (PowerSwitch.init none (some "") none (some 0) none (some 0) false
        ⟨"u", "p", "h", 5, 7, 9⟩).password = "p" ∧
    (PowerSwitch.init none (some "") none (some 0) none (some 0) false
        ⟨"u", "p", "h", 5, 7, 9⟩).timeout = 5 ∧
    (PowerSwitch.init none (some "") none (some 0) none (some 0) false
        ⟨"u", "p", "h", 5, 7, 9⟩).retries = 9 ∧
    (PowerSwitch.init (some "root") none none none (some 11) none false
        ⟨"u", "p", "h", 5, 7, 9⟩).userid = "root" ∧
    (PowerSwitch.init (some "root") none none none (some 11) none false
        ⟨"u", "p", "h", 5, 7, 9⟩).cycletime = 11 :=
  ⟨(c10_init_falsy_defaults.1 ⟨"u", "p", "h", 5, 7, 9⟩ false none (some "")
      none (some 0) none (some 0)).2.2.1 (Or.inr rfl),
   (c10_init_falsy_defaults.1 ⟨"u", "p", "h", 5, 7, 9⟩ false none (some "")
      none (some 0) none (some 0)).2.2.2.2.2.2.1 (Or.inr rfl),
   (c10_init_falsy_defaults.1 ⟨"u", "p", "h", 5, 7, 9⟩ false none (some "")
      none (some 0) none (some 0)).2.2.2.2.2.2.2.2.2.2.1 (Or.inr rfl),
   (c10_init_falsy_defaults.1 ⟨"u", "p", "h", 5, 7, 9⟩ false (some "root")
      none none none (some 11) none).2.1 "root" rfl (by decide),
   (c10_init_falsy_defaults.1 ⟨"u", "p", "h", 5, 7, 9⟩ false (some "root")
      none none none (some 11) none).2.2.2.2.2.2.2.2.2.1 11 rfl
      (by norm_num)⟩
